import Mathlib

/-!
Verification of the vtable-introspection core in
`src/source/scpp/extra/DVTableChecks.cpp`.

The development embeds the three operations of the core:

* `getVirtualMethodCount` — the generic slot counter that reads the
  dispatch-table pointer from an instance's first word and walks slots
  until the zero sentinel (source lines 23–30).  Memory is a flat word
  map `Nat → Int`; the C loop has no intrinsic bound, so the walk takes
  an explicit fuel argument: `none` models the scan running past the
  given bound without meeting a sentinel.
* `decodeSlot` — the member-pointer decoder described by the spec
  (the source only checks concrete encoded values in
  `doCheckMethodPoint`; the decoding formula is the spec's).
* `validate` — the inheritance-shape validator described by the spec,
  and `getVirtualMethodCountSCPDriver`, the source's concrete driver
  variant with `unsigned long` (mod `2 ^ 64`) subtraction.

State (memory plus an output log) is threaded through the operations
explicitly so that frame properties — the operations are pure reads —
are provable rather than assumed.
-/

namespace DVTableChecks

/-- Program state visible to the checks: a flat word-addressed memory
(both object words and dispatch-table entries live here, pointers are
word addresses) and an output log (values printed).  The C code under
test only ever reads memory; threading the whole state through each
operation lets us prove that. -/
structure World where
  mem : Nat → Int
  out : List Int

/-- The scan loop of `getVirtualMethodCount` (source line 28:
`for (idx = 0; vtable[0][idx] != 0; idx++);`).  `tbl` is the table's
base address, `idx` the current slot, `fuel` an explicit iteration
bound (the C loop has none): `none` means the bound was exhausted
before a zero entry appeared. -/
def vtableScan (w : World) (tbl idx : Nat) : Nat → Option Nat × World
  | 0 => (none, w)
  | fuel + 1 =>
    if w.mem (tbl + idx) = 0 then (some idx, w)
    else vtableScan w tbl (idx + 1) fuel

/-- Source lines 23–30: `getVirtualMethodCount(T& t)` reads the
dispatch-table pointer from the instance's first word
(`long **vtable = (long **)&t;` then `vtable[0]`) and scans from slot
0 for the first zero entry. -/
def getVirtualMethodCount (w : World) (tAddr fuel : Nat) : Option Nat × World :=
  vtableScan w (w.mem tAddr).toNat 0 fuel

/-- The ABI member-pointer encoding exercised by `doCheckMethodPoint`
(source lines 193–214): a pointer to the virtual method in slot
`index` reinterprets to the integer `index * pointerWidth + 1` (the
low bit tags "virtual dispatch").  With width 8 this yields the
constants 1, 9, 17, 25 the source compares against. -/
def encodeMemberPointer (index pointerWidth : Int) : Int :=
  index * pointerWidth + 1

/-- Decode failure signal of the member-pointer decoder. -/
inductive DecodeError where
  | NotAVirtualMemberPointer
deriving DecidableEq

/-- Modelled from the spec: `decodeSlot` (MemberPointerDecoder, spec
§4.2) is described only abstractly — the source's
`doCheckMethodPoint` checks concrete encoded values rather than
implementing a decoder.  Per the spec: `index = (rawValue - 1) /
pointerWidth`; reject when the low bit is unset, when `rawValue - 1`
is not an exact multiple of `pointerWidth`, or when the quotient is
negative. -/
def decodeSlot (rawValue pointerWidth : Int) : Except DecodeError Int :=
  if rawValue % 2 ≠ 1 then Except.error DecodeError.NotAVirtualMemberPointer
  else if (rawValue - 1) % pointerWidth ≠ 0 then Except.error DecodeError.NotAVirtualMemberPointer
  else if (rawValue - 1) / pointerWidth < 0 then Except.error DecodeError.NotAVirtualMemberPointer
  else Except.ok ((rawValue - 1) / pointerWidth)

/-- State-threaded wrapper of `decodeSlot`: the decoding step is a
pure numeric computation, so it carries the world through
unchanged. -/
def decodeSlotSt (w : World) (rawValue pointerWidth : Int) :
    Except DecodeError Int × World :=
  (decodeSlot rawValue pointerWidth, w)

/-- Spec §3: inheritance-shape descriptor `{chainDepth ≥ 1,
baselinePerLevel ≥ 0}`; in the source these are the constants
`inheritance_depth = 2`, `default_vmcount = 2` of
`getVirtualMethodCountSCPDriver`. -/
structure InheritanceShapeDescriptor where
  chainDepth : Nat
  baselinePerLevel : Nat

/-- Modelled from the spec: `validate` (InterfaceShapeValidator, spec
§4.3) — the source's `getVirtualMethodCountSCPDriver` computes the
subtraction and leaves the comparison to its caller.  Steps per the
spec: `observed = countSlots(instance)`, `attributable = observed -
chainDepth * baselinePerLevel`, return `attributable ==
expectedInterfaceSlots`.  `none` propagates a scan that found no
sentinel within the fuel bound. -/
def validate (w : World) (tAddr fuel : Nat) (d : InheritanceShapeDescriptor)
    (expectedInterfaceSlots : Int) : Option Bool × World :=
  match getVirtualMethodCount w tAddr fuel with
  | (none, w1) => (none, w1)
  | (some observed, w1) =>
    (some (decide ((observed : Int) -
      (d.chainDepth : Int) * (d.baselinePerLevel : Int) = expectedInterfaceSlots)), w1)

/-- Modulus of the C `unsigned long` result type (LP64). -/
def ULONG_MOD : Nat := 2 ^ 64

/-- Source lines 161–171: count the driver instance's virtual methods
and subtract `inheritance_depth * default_vmcount = 2 * 2` in
`unsigned long` arithmetic.  The driver object itself (`VTSCPDriver`
over the external `SCPDriver` interface) is constructed outside this
translation unit's reach, so the already-constructed instance is taken
as the memory at `driverAddr`. -/
def getVirtualMethodCountSCPDriver (w : World) (driverAddr fuel : Nat) :
    Option Nat × World :=
  match getVirtualMethodCount w driverAddr fuel with
  | (none, w1) => (none, w1)
  | (some observed, w1) =>
    (some ((ULONG_MOD + observed % ULONG_MOD - 2 * 2) % ULONG_MOD), w1)

/-- Memory of a constructed `B` instance (source lines 174–191): the
object's first word (address 0) holds the dispatch-table pointer
(table placed at address 64); the table holds one nonzero code address
for each of `vfunc1`, `vfunc2` (inherited from `A`) and `vfunc3`,
`vfunc4` (declared by `B`), followed by the zero sentinel. -/
def memB : Nat → Int := fun a =>
  if a = 0 then 64
  else if a = 64 then 4097
  else if a = 65 then 4098
  else if a = 66 then 4099
  else if a = 67 then 4100
  else 0

/-- World holding a constructed `B` instance at address 0. -/
def worldB : World :=
  { mem := memB, out := [] }

/-- Modelled from the spec: the two-level scenario instance (spec §8)
— a chain of depth 2 with baseline 2 per level plus 2 newly declared
slots, 6 slots in all; no such hierarchy exists in the source (the
depth-2 constants there belong to the external `SCPDriver` chain). -/
def memTwoLevel : Nat → Int := fun a =>
  if a = 0 then 64
  else if 64 ≤ a ∧ a < 70 then ((4000 + a : Nat) : Int)
  else 0

/-- World holding the spec's two-level scenario instance at address 0. -/
def worldTwoLevel : World :=
  { mem := memTwoLevel, out := [] }

/-- A world whose dispatch table has no zero sentinel anywhere: every
word of memory is nonzero. -/
def worldNoSentinel : World :=
  { mem := fun _ => 7, out := [] }

/-- A world whose instance's dispatch table is empty (the sentinel is
the very first entry), so the counted slot total is 0 < 4. -/
def worldShallow : World :=
  { mem := fun a => if a = 0 then 8 else 0, out := [] }

/-- Source lines 193–214: `doCheckMethodPoint` reinterprets
`&B::vfunc1` … `&B::vfunc4` as integers and compares them with 1, 9,
17, 25, returning the first mismatching expected value and 0 on
success.  The reinterpreted values are the ABI encodings of slots
0–3 at pointer width 8.  (The trailing printf calls of the source run
only after these checks and print the same four values.) -/
def doCheckMethodPoint : Int :=
  if encodeMemberPointer 0 8 ≠ 1 then 1
  else if encodeMemberPointer 1 8 ≠ 9 then 9
  else if encodeMemberPointer 2 8 ≠ 17 then 17
  else if encodeMemberPointer 3 8 ≠ 25 then 25
  else 0

/-- A C++ statement as far as `computeTimeout`'s body is concerned: an
expression statement whose value is discarded, or a return
statement. -/
inductive Stmt where
  | exprStmt (value : Int)
  | returnStmt (value : Int)

/-- Run a function body: a return statement produces the function's
result; a discarded expression statement contributes nothing; falling
off the end of the body produces no result (`none` — the missing
return). -/
def execBody : List Stmt → Option Int
  | [] => none
  | Stmt.returnStmt v :: _ => some v
  | Stmt.exprStmt _ :: rest => execBody rest

/-- Source lines 113–117: the body of `VTSCPDriver::computeTimeout` is
the single statement `std::chrono::milliseconds(100);` — a constructed
value that is immediately discarded — and no return statement, for
every round number. -/
def computeTimeoutBody (_roundNumber : Nat) : List Stmt :=
  [Stmt.exprStmt 100]

/-- `VTSCPDriver::computeTimeout` as executed: run its body. -/
def computeTimeout (roundNumber : Nat) : Option Int :=
  execBody (computeTimeoutBody roundNumber)

/-- The scan loop never changes the world: it only reads memory. -/
theorem vtableScan_frame (w : World) (tbl : Nat) :
    ∀ fuel idx, (vtableScan w tbl idx fuel).2 = w := by
  intro fuel
  induction fuel with
  | zero => intro idx; rfl
  | succ n ih =>
    intro idx
    by_cases h : w.mem (tbl + idx) = 0
    · simp [vtableScan, h]
    · simpa [vtableScan, h] using ih (idx + 1)

/-- The counter never changes the world. -/
theorem getVirtualMethodCount_frame (w : World) (tAddr fuel : Nat) :
    (getVirtualMethodCount w tAddr fuel).2 = w :=
  vtableScan_frame w (w.mem tAddr).toNat fuel 0

/-- If the first zero entry after `idx` sits `k` slots ahead and the
fuel covers it, the scan stops exactly there and returns its index. -/
theorem vtableScan_finds (w : World) (tbl : Nat) :
    ∀ fuel idx k, k < fuel →
      (∀ j, j < k → w.mem (tbl + (idx + j)) ≠ 0) →
      w.mem (tbl + (idx + k)) = 0 →
      vtableScan w tbl idx fuel = (some (idx + k), w) := by
  intro fuel
  induction fuel with
  | zero =>
    intro idx k hk _ _
    exact absurd hk (Nat.not_lt_zero k)
  | succ n ih =>
    intro idx k hk hnz hz
    cases k with
    | zero =>
      have hz0 : w.mem (tbl + idx) = 0 := by simpa using hz
      simp [vtableScan, hz0]
    | succ m =>
      have h0 : w.mem (tbl + idx) ≠ 0 := by
        simpa using hnz 0 (Nat.succ_pos m)
      have hrec : vtableScan w tbl (idx + 1) n = (some (idx + 1 + m), w) := by
        apply ih (idx + 1) m (by omega)
        · intro j hj
          have := hnz (j + 1) (by omega)
          have harith : idx + (j + 1) = idx + 1 + j := by omega
          rwa [harith] at this
        · have harith : idx + (m + 1) = idx + 1 + m := by omega
          rwa [harith] at hz
      have heq : idx + 1 + m = idx + (m + 1) := by omega
      calc vtableScan w tbl idx (n + 1)
          = vtableScan w tbl (idx + 1) n := by simp [vtableScan, h0]
        _ = (some (idx + 1 + m), w) := hrec
        _ = (some (idx + (m + 1)), w) := by rw [heq]

/-- If no entry of the table is ever zero, the scan exhausts any fuel
bound without producing a count: the C loop never terminates. -/
theorem vtableScan_no_sentinel (w : World) (tbl : Nat)
    (h : ∀ n, w.mem (tbl + n) ≠ 0) :
    ∀ fuel idx, vtableScan w tbl idx fuel = (none, w) := by
  intro fuel
  induction fuel with
  | zero => intro idx; rfl
  | succ n ih =>
    intro idx
    simpa [vtableScan, h idx] using ih (idx + 1)

/-- C1: for a fully constructed instance whose dispatch table is
zero-terminated — entries `0..n-1` nonzero, entry `n` the first zero —
`getVirtualMethodCount` reads the table pointer from the instance's
first word, walks slots from index 0 and returns exactly `n`, the
number of virtual operations in the table, excluding the sentinel
(and leaves the world untouched). -/
theorem claim_C1_count_slots (w : World) (tAddr n fuel : Nat)
    (hnz : ∀ j, j < n → w.mem ((w.mem tAddr).toNat + j) ≠ 0)
    (hz : w.mem ((w.mem tAddr).toNat + n) = 0)
    (hfuel : n < fuel) :
    getVirtualMethodCount w tAddr fuel = (some n, w) := by
  have h := vtableScan_finds w (w.mem tAddr).toNat fuel 0 n hfuel
    (by intro j hj; simpa using hnz j hj) (by simpa using hz)
  simpa [getVirtualMethodCount] using h

/-- C1 witness: on the constructed `B` instance (4 virtual operations,
sentinel in slot 4) the counter returns 4. -/
theorem claim_C1_count_slots_witness :
    getVirtualMethodCount worldB 0 16 = (some 4, worldB) :=
  claim_C1_count_slots worldB 0 4 16
    (by intro j hj; interval_cases j <;> decide) (by decide) (by decide)

/-- C7: the scan terminates precisely under the sentinel precondition.
If the instance's table contains a zero entry, there is an `m` — the
index of the first zero entry — such that every sufficient fuel bound
makes `getVirtualMethodCount` return `m`; if no entry is ever zero,
every fuel bound is exhausted without a result (the unbounded C loop
never terminates). -/
theorem claim_C7_termination (w : World) (tAddr : Nat) :
    ((∃ n, w.mem ((w.mem tAddr).toNat + n) = 0) →
      ∃ m, (∀ j, j < m → w.mem ((w.mem tAddr).toNat + j) ≠ 0) ∧
        w.mem ((w.mem tAddr).toNat + m) = 0 ∧
        ∀ fuel, m < fuel → getVirtualMethodCount w tAddr fuel = (some m, w)) ∧
    ((∀ n, w.mem ((w.mem tAddr).toNat + n) ≠ 0) →
      ∀ fuel, getVirtualMethodCount w tAddr fuel = (none, w)) := by
  constructor
  · intro hex
    refine ⟨Nat.find hex, ?_, Nat.find_spec hex, ?_⟩
    · intro j hj
      exact Nat.find_min hex hj
    · intro fuel hfuel
      have h := vtableScan_finds w (w.mem tAddr).toNat fuel 0 (Nat.find hex) hfuel
        (by intro j hj; simpa using Nat.find_min hex hj)
        (by simpa using Nat.find_spec hex)
      simpa [getVirtualMethodCount] using h
  · intro hno fuel
    exact vtableScan_no_sentinel w (w.mem tAddr).toNat hno fuel 0

/-- C7 witness: on a world with no sentinel anywhere, the scan yields
no count at fuel 5. -/
theorem claim_C7_termination_witness :
    getVirtualMethodCount worldNoSentinel 0 5 = (none, worldNoSentinel) :=
  (claim_C7_termination worldNoSentinel 0).2
    (fun n h => by simp [worldNoSentinel] at h) 5

/-- C8: all the operations are pure side-effect-free reads — each one
returns the world (memory and output log) it was given, unchanged, and
the decoding step is the pure numeric function `decodeSlot` paired
with the untouched world. -/
theorem claim_C8_pure_reads (w : World) (tbl idx fuel tAddr : Nat)
    (rawValue pw : Int) (d : InheritanceShapeDescriptor) (expected : Int) :
    (vtableScan w tbl idx fuel).2 = w ∧
    (getVirtualMethodCount w tAddr fuel).2 = w ∧
    decodeSlotSt w rawValue pw = (decodeSlot rawValue pw, w) ∧
    (validate w tAddr fuel d expected).2 = w ∧
    (getVirtualMethodCountSCPDriver w tAddr fuel).2 = w := by
  have hf := getVirtualMethodCount_frame w tAddr fuel
  refine ⟨vtableScan_frame w tbl fuel idx, hf, rfl, ?_, ?_⟩
  · unfold validate
    cases hp : getVirtualMethodCount w tAddr fuel with
    | mk fst snd =>
      rw [hp] at hf
      cases fst <;> simpa using hf
  · unfold getVirtualMethodCountSCPDriver
    cases hp : getVirtualMethodCount w tAddr fuel with
    | mk fst snd =>
      rw [hp] at hf
      cases fst <;> simpa using hf

/-- C10: `VTSCPDriver::computeTimeout` evaluates its
`std::chrono::milliseconds(100)` expression as a discarded statement
and reaches the end of a non-void function without returning: for
every round number it produces no defined result. -/
theorem claim_C10_compute_timeout_missing_return (roundNumber : Nat) :
    computeTimeout roundNumber = none := rfl

/-- C2 counterexample: at the valid slot index 1 and pointer width 3,
the encoded raw value is `1 * 3 + 1 = 4`, which is even, so the
decoder rejects it instead of returning the index — and at pointer
width 0 the round trip returns slot 0 instead of 1.  The round trip is
not a left inverse for every pointer width. -/
theorem claim_C2_counterexample :
    decodeSlot (encodeMemberPointer 1 3) 3
      = Except.error DecodeError.NotAVirtualMemberPointer ∧
    decodeSlot (encodeMemberPointer 1 0) 0 = Except.ok 0 := by
  constructor <;> rfl

/-- C2 (amended): for every valid slot index `i ≥ 0` and every even
nonzero `pointerWidth` — in particular the machine widths 4 and 8 —
decoding the encoded raw value `i * pointerWidth + 1` yields `i`
again: `decodeSlot` is a left inverse of the encoding there.  (For odd
widths an odd index makes the raw value even, tripping the low-bit
check, and width 0 collapses every index to 0.) -/
theorem claim_C2_decode_left_inverse (i pw : Int) (hi : 0 ≤ i)
    (hpar : 2 ∣ pw) (hnz : pw ≠ 0) :
    decodeSlot (encodeMemberPointer i pw) pw = Except.ok i := by
  have hmul : (2 : Int) ∣ i * pw := Dvd.dvd.mul_left hpar i
  have h2 : (i * pw + 1) % 2 = 1 := by omega
  have hdvd : (i * pw + 1 - 1) % pw = 0 := by
    simp
  have hquot : (i * pw + 1 - 1) / pw = i := by
    simpa using Int.mul_ediv_cancel i hnz
  unfold decodeSlot encodeMemberPointer
  rw [if_neg (by simp [h2]), if_neg (by simp [hdvd]),
    if_neg (by rw [hquot]; omega), hquot]

/-- C2 witness: slot 3 at pointer width 8 encodes to 25 and decodes
back to 3. -/
theorem claim_C2_decode_left_inverse_witness :
    decodeSlot (encodeMemberPointer 3 8) 8 = Except.ok 3 :=
  claim_C2_decode_left_inverse 3 8 (by norm_num) (by norm_num) (by norm_num)

/-- C3: the decoder fails with `NotAVirtualMemberPointer` on every
even raw value (for every pointer width), on every raw value where
`rawValue - 1` is not an exact multiple of the pointer width, and on
every raw value whose decoded quotient is negative; conversely, a
decoded slot index only arises from a raw value passing the odd and
divisibility checks, and is nonnegative. -/
theorem claim_C3_decode_rejections (rawValue pw : Int) :
    (rawValue % 2 = 0 →
      decodeSlot rawValue pw = Except.error DecodeError.NotAVirtualMemberPointer) ∧
    ((rawValue - 1) % pw ≠ 0 →
      decodeSlot rawValue pw = Except.error DecodeError.NotAVirtualMemberPointer) ∧
    ((rawValue - 1) / pw < 0 →
      decodeSlot rawValue pw = Except.error DecodeError.NotAVirtualMemberPointer) ∧
    (∀ i, decodeSlot rawValue pw = Except.ok i →
      rawValue % 2 = 1 ∧ (rawValue - 1) % pw = 0 ∧ 0 ≤ i) := by
  refine ⟨?_, ?_, ?_, ?_⟩
  · intro h
    have hodd : rawValue % 2 ≠ 1 := by omega
    unfold decodeSlot
    rw [if_pos hodd]
  · intro h
    unfold decodeSlot
    by_cases h1 : rawValue % 2 ≠ 1
    · rw [if_pos h1]
    · rw [if_neg h1, if_pos h]
  · intro h
    unfold decodeSlot
    by_cases h1 : rawValue % 2 ≠ 1
    · rw [if_pos h1]
    · rw [if_neg h1]
      by_cases h2 : (rawValue - 1) % pw ≠ 0
      · rw [if_pos h2]
      · rw [if_neg h2, if_pos h]
  · intro i h
    unfold decodeSlot at h
    by_cases h1 : rawValue % 2 ≠ 1
    · rw [if_pos h1] at h; exact absurd h (by simp)
    · rw [if_neg h1] at h
      by_cases h2 : (rawValue - 1) % pw ≠ 0
      · rw [if_pos h2] at h; exact absurd h (by simp)
      · rw [if_neg h2] at h
        by_cases h3 : (rawValue - 1) / pw < 0
        · rw [if_pos h3] at h; exact absurd h (by simp)
        · rw [if_neg h3] at h
          have hi : (rawValue - 1) / pw = i := by
            simpa using h
          refine ⟨by omega, by omega, by omega⟩

/-- C3 witness: the even raw value 4 is rejected at pointer width 8. -/
theorem claim_C3_decode_rejections_witness :
    decodeSlot 4 8 = Except.error DecodeError.NotAVirtualMemberPointer :=
  (claim_C3_decode_rejections 4 8).1 (by norm_num)

/-- C4: whenever the slot count of the instance is observed,
`validate` computes `attributable = observed - chainDepth *
baselinePerLevel` and returns exactly the boolean value of the
comparison `attributable = expectedInterfaceSlots`, leaving the world
unchanged. -/
theorem claim_C4_validate_comparison (w : World) (tAddr fuel : Nat)
    (d : InheritanceShapeDescriptor) (expected : Int) (observed : Nat)
    (hobs : (getVirtualMethodCount w tAddr fuel).1 = some observed) :
    validate w tAddr fuel d expected =
      (some (decide ((observed : Int) -
        (d.chainDepth : Int) * (d.baselinePerLevel : Int) = expected)), w) := by
  have hf := getVirtualMethodCount_frame w tAddr fuel
  unfold validate
  cases hp : getVirtualMethodCount w tAddr fuel with
  | mk fst snd =>
    rw [hp] at hobs hf
    simp at hobs hf
    subst hobs
    subst hf
    rfl

/-- C4 witness: on the `B` instance, with descriptor `{chainDepth 1,
baselinePerLevel 2}` and expected count 2, `validate` returns true:
`4 - 1 * 2 = 2`. -/
theorem claim_C4_validate_comparison_witness :
    validate worldB 0 16 ⟨1, 2⟩ 2 = (some true, worldB) := by
  have h := claim_C4_validate_comparison worldB 0 16 ⟨1, 2⟩ 2 4 rfl
  exact h

/-- C5 counterexample: in the single-level scenario the 2 newly
declared slots are `B::vfunc3` and `B::vfunc4`, occupying slot indices
2 and 3; their encoded member pointers are the raw values 17 and 25 —
the very values `doCheckMethodPoint` checks them against — not 1 and 9
(those belong to the inherited slots 0 and 1). -/
theorem claim_C5_counterexample :
    encodeMemberPointer 2 8 = 17 ∧ (17 : Int) ≠ 1 ∧
    encodeMemberPointer 3 8 = 25 ∧ (25 : Int) ≠ 9 := by
  refine ⟨rfl, by norm_num, rfl, by norm_num⟩

/-- C5 (amended): in the single-level scenario (2 inherited baseline
slots, 2 new slots, pointer width 8, first slot at relative offset 0):
the encoded member pointers of the 2 inherited slots are the raw
values 1 and 9 and those of the 2 new slots are 17 and 25 (decoding
back to slot indices 2 and 3), all four checks of `doCheckMethodPoint`
pass, `getVirtualMethodCount` on the constructed `B` instance returns
4, and `validate` with descriptor `{depth 1, baselinePerLevel 2}` and
expected interface count 2 returns true. -/
theorem claim_C5_single_level_scenario :
    encodeMemberPointer 0 8 = 1 ∧ encodeMemberPointer 1 8 = 9 ∧
    encodeMemberPointer 2 8 = 17 ∧ encodeMemberPointer 3 8 = 25 ∧
    decodeSlot 17 8 = Except.ok 2 ∧ decodeSlot 25 8 = Except.ok 3 ∧
    doCheckMethodPoint = 0 ∧
    getVirtualMethodCount worldB 0 16 = (some 4, worldB) ∧
    validate worldB 0 16 ⟨1, 2⟩ 2 = (some true, worldB) :=
  ⟨rfl, rfl, rfl, rfl, rfl, rfl, rfl, rfl, rfl⟩

/-- C6 counterexample: in the two-level scenario (baseline 2 per
level, depth 2, so 4 baseline slots in slots 0–3) the 2 slots newly
declared at the derived level occupy slot indices 4 and 5; their
encoded member pointers are the raw values 33 and 41 — not 17 and 25,
which encode slots 2 and 3. -/
theorem claim_C6_counterexample :
    encodeMemberPointer 4 8 = 33 ∧ (33 : Int) ≠ 17 ∧
    encodeMemberPointer 5 8 = 41 ∧ (41 : Int) ≠ 25 := by
  refine ⟨rfl, by norm_num, rfl, by norm_num⟩

/-- C6 (amended): in the two-level scenario (baseline 2 per level,
depth 2, 2 new slots at the derived level) `getVirtualMethodCount`
returns 6; the two new slots sit at indices 4 and 5, so their encoded
member pointers are the raw values 33 and 41 (decoding back to 4 and
5); `validate` with descriptor `{depth 2, baselinePerLevel 2}` and
expected interface count 2 returns true, and with expected count 3
returns false. -/
theorem claim_C6_two_level_scenario :
    getVirtualMethodCount worldTwoLevel 0 16 = (some 6, worldTwoLevel) ∧
    encodeMemberPointer 4 8 = 33 ∧ encodeMemberPointer 5 8 = 41 ∧
    decodeSlot 33 8 = Except.ok 4 ∧ decodeSlot 41 8 = Except.ok 5 ∧
    validate worldTwoLevel 0 16 ⟨2, 2⟩ 2 = (some true, worldTwoLevel) ∧
    validate worldTwoLevel 0 16 ⟨2, 2⟩ 3 = (some false, worldTwoLevel) :=
  ⟨rfl, rfl, rfl, rfl, rfl, rfl, rfl⟩

/-- C9: `getVirtualMethodCountSCPDriver` returns the counted slot
total minus `2 * 2 = 4` as a 64-bit unsigned value: when at least 4
slots are counted the result is the plain difference, but when fewer
than 4 are counted the subtraction wraps modulo `2 ^ 64` and a huge
value of at least `2 ^ 64 - 4` is returned — no error is signaled. -/
theorem claim_C9_unsigned_wraparound (w : World) (tAddr fuel observed : Nat)
    (hobs : (getVirtualMethodCount w tAddr fuel).1 = some observed)
    (hrange : observed < 2 ^ 64) :
    (4 ≤ observed →
      (getVirtualMethodCountSCPDriver w tAddr fuel).1 = some (observed - 4)) ∧
    (observed < 4 →
      (getVirtualMethodCountSCPDriver w tAddr fuel).1
          = some (2 ^ 64 - 4 + observed) ∧
        2 ^ 64 - 4 ≤ 2 ^ 64 - 4 + observed) := by
  have hM : (2 : Nat) ^ 64 = 18446744073709551616 := by norm_num
  unfold getVirtualMethodCountSCPDriver
  cases hp : getVirtualMethodCount w tAddr fuel with
  | mk fst snd =>
    rw [hp] at hobs
    simp at hobs
    subst hobs
    rw [hM] at hrange
    constructor
    · intro h4
      show some ((ULONG_MOD + observed % ULONG_MOD - 2 * 2) % ULONG_MOD)
          = some (observed - 4)
      simp only [Option.some.injEq, ULONG_MOD, hM]
      omega
    · intro h4
      refine ⟨?_, by omega⟩
      show some ((ULONG_MOD + observed % ULONG_MOD - 2 * 2) % ULONG_MOD)
          = some (2 ^ 64 - 4 + observed)
      simp only [Option.some.injEq, ULONG_MOD, hM]
      omega

/-- C9 witness: on an instance whose table holds 0 slots (sentinel
first), the driver count wraps to `2 ^ 64 - 4`. -/
theorem claim_C9_unsigned_wraparound_witness :
    (getVirtualMethodCountSCPDriver worldShallow 0 3).1
        = some (2 ^ 64 - 4 + 0) ∧
      2 ^ 64 - 4 ≤ 2 ^ 64 - 4 + 0 :=
  (claim_C9_unsigned_wraparound worldShallow 0 3 0 rfl (by norm_num)).2
    (by norm_num)

end DVTableChecks
